import Mathlib

/-!
Shallow embedding of the availability and conflict-resolution core of the
booking system (src/app.py), together with theorems settling the frozen
claims about its specification.

Modelling conventions:
- Wall-clock times are integer minutes from midnight (the source parses
  every HH:MM string into this form before interval arithmetic; where the
  source compares formatted HH:MM strings directly, lexicographic order on
  two-digit formatted strings agrees with numeric order on minutes, so the
  comparisons are embedded as Nat comparisons).
- Dates are absolute day numbers; the weekday of day d is d % 7 (the
  claims do not depend on the calendar anchoring).
- The database session is a Store record holding the bookings, blocked
  times and availability rows; each Flask route that mutates bookings is
  embedded as a function from Store to Store (paired with a success flag
  where the route can reject).
-/

namespace BookingApp

inductive Status where
  | confirmed
  | completed
  | cancelled
  | no_show
deriving DecidableEq

structure Booking where
  id : Nat
  booking_date : Nat
  booking_time : Nat
  end_time : Nat
  status : Status
deriving DecidableEq

structure BlockedTime where
  date : Nat
  start_time : Nat
  end_time : Nat
  is_all_day : Bool
  is_recurring_weekly : Bool
  recurring_day_of_week : Nat
deriving DecidableEq

structure Availability where
  day_of_week : Nat
  start_time : Nat
  end_time : Nat
  is_active : Bool
deriving DecidableEq

structure Store where
  bookings : List Booking
  blocked_times : List BlockedTime
  availabilities : List Availability
deriving DecidableEq

/-- weekday of an absolute day number, mirroring booking_date.weekday(). -/
def weekday (d : Nat) : Nat := d % 7

/-- is_time_blocked from src/app.py lines 124-183: all-day block on the
date, recurring all-day block on the weekday, timed block on the date with
half-open overlap, or recurring timed block on the weekday with half-open
overlap. -/
def is_time_blocked (s : Store) (booking_date start_mins end_mins : Nat) : Bool :=
  (s.blocked_times.any fun b =>
    b.date == booking_date && b.is_all_day && !b.is_recurring_weekly) ||
  (s.blocked_times.any fun b =>
    b.is_recurring_weekly && b.recurring_day_of_week == weekday booking_date && b.is_all_day) ||
  (s.blocked_times.any fun b =>
    b.date == booking_date && !b.is_all_day && !b.is_recurring_weekly &&
    decide (start_mins < b.end_time) && decide (end_mins > b.start_time)) ||
  (s.blocked_times.any fun b =>
    b.is_recurring_weekly && b.recurring_day_of_week == weekday booking_date && !b.is_all_day &&
    decide (start_mins < b.end_time) && decide (end_mins > b.start_time))

/-- check_slot_available from src/app.py lines 186-212: false when the
time is blocked, otherwise false when any booking on the date with status
confirmed (only confirmed: the query is filter_by(status=confirmed))
overlaps the requested half-open interval. -/
def check_slot_available (s : Store) (booking_date start_mins end_mins : Nat) : Bool :=
  if is_time_blocked s booking_date start_mins end_mins then false
  else
    (s.bookings.filter fun b =>
      b.booking_date == booking_date && b.status == Status.confirmed).all
      fun b => !(decide (start_mins < b.end_time) && decide (end_mins > b.booking_time))

/-- is_day_fully_blocked from src/app.py lines 215-239. -/
def is_day_fully_blocked (s : Store) (booking_date : Nat) : Bool :=
  (s.blocked_times.any fun b =>
    b.date == booking_date && b.is_all_day && !b.is_recurring_weekly) ||
  (s.blocked_times.any fun b =>
    b.is_recurring_weekly && b.recurring_day_of_week == weekday booking_date && b.is_all_day)

/-- one availability window walk of the slot loop in
get_available_slots_for_date (src/app.py lines 265-282): while
current + duration <= end_mins, keep the slot when check_slot_available
accepts it, then step by 30. A fuel argument makes the while loop a
structural recursion; fuel end_mins + 1 is always enough iterations. -/
def slots_loop (s : Store) (booking_date duration : Nat) :
    Nat → Nat → Nat → List (Nat × Nat)
  | 0, _, _ => []
  | fuel + 1, current, end_mins =>
    if current + duration ≤ end_mins then
      (if check_slot_available s booking_date current (current + duration) then
        [(current, current + duration)]
      else []) ++ slots_loop s booking_date duration fuel (current + 30) end_mins
    else []

/-- get_available_slots_for_date from src/app.py lines 242-284, with the
service replaced by its duration_minutes (the only field the function
reads). Returns the slots of every active availability window for the
weekday, in storage order, each window walked at the fixed 30-minute
stride. -/
def get_available_slots_for_date (s : Store) (duration booking_date : Nat) : List (Nat × Nat) :=
  if is_day_fully_blocked s booking_date then []
  else
    let availability := s.availabilities.filter fun a =>
      a.day_of_week == weekday booking_date && a.is_active
    if availability.isEmpty then []
    else
      availability.foldr
        (fun a acc =>
          slots_loop s booking_date duration (a.end_time + 1) a.start_time a.end_time ++ acc)
        []

/-- one booking of the auto-completion sweep (src/app.py lines 106-115): a
confirmed booking whose date is past, or whose date is today with end time
at or before the current time, becomes completed; every other booking is
untouched. -/
def auto_complete_one (today current_time : Nat) (b : Booking) : Booking :=
  if b.status == Status.confirmed && decide (b.booking_date < today) then
    { b with status := Status.completed }
  else if b.status == Status.confirmed && b.booking_date == today &&
      decide (b.end_time ≤ current_time) then
    { b with status := Status.completed }
  else b

/-- auto_complete_past_appointments from src/app.py lines 90-121. -/
def auto_complete_past_appointments (s : Store) (today current_time : Nat) : Store :=
  { s with bookings := s.bookings.map (auto_complete_one today current_time) }

/-- status assignment shared by the four manual status routes: each route
loads the booking by id and assigns the new status unconditionally. -/
def set_status (s : Store) (booking_id : Nat) (st : Status) : Store :=
  { s with bookings := s.bookings.map fun b =>
      if b.id == booking_id then { b with status := st } else b }

/-- cancel_booking from src/app.py lines 1285-1316. -/
def cancel_booking (s : Store) (booking_id : Nat) : Store :=
  set_status s booking_id Status.cancelled

/-- mark_no_show from src/app.py lines 1319-1351. -/
def mark_no_show (s : Store) (booking_id : Nat) : Store :=
  set_status s booking_id Status.no_show

/-- undo_no_show from src/app.py lines 1354-1367. -/
def undo_no_show (s : Store) (booking_id : Nat) : Store :=
  set_status s booking_id Status.confirmed

/-- mark_complete from src/app.py lines 1370-1392. -/
def mark_complete (s : Store) (booking_id : Nat) : Store :=
  set_status s booking_id Status.completed

/-- add_booking from src/app.py lines 1225-1268 (POST path): the staff
manual booking is created with status confirmed and committed with no
conflict or block check of any kind. -/
def add_booking (s : Store) (booking_id booking_date booking_time duration : Nat) : Store :=
  { s with bookings := s.bookings ++
      [{ id := booking_id, booking_date := booking_date, booking_time := booking_time,
         end_time := booking_time + duration, status := Status.confirmed }] }

/-- final commit step of the public booking flow, intake_form in
src/app.py lines 2240-2287: re-runs check_slot_available and writes the
booking (default status confirmed) only when it passes; on failure the
session is rolled back and nothing is written. -/
def intake_form (s : Store) (booking_id booking_date booking_time end_time : Nat) :
    Store × Bool :=
  if check_slot_available s booking_date booking_time end_time then
    ({ s with bookings := s.bookings ++
        [{ id := booking_id, booking_date := booking_date, booking_time := booking_time,
           end_time := end_time, status := Status.confirmed }] }, true)
  else (s, false)

/-- booking-overlap query of move_booking, src/app.py lines 1486-1493:
another booking on the new date with status confirmed or completed whose
interval satisfies one of the three clauses (covers the new start, covers
the new end, or is contained in the new interval). -/
def move_conflict (s : Store) (booking_id new_date new_time new_end_time : Nat) : Bool :=
  s.bookings.any fun b =>
    b.id != booking_id && b.booking_date == new_date &&
    (b.status == Status.confirmed || b.status == Status.completed) &&
    ((decide (b.booking_time ≤ new_time) && decide (b.end_time > new_time)) ||
     (decide (b.booking_time < new_end_time) && decide (b.end_time ≥ new_end_time)) ||
     (decide (b.booking_time ≥ new_time) && decide (b.end_time ≤ new_end_time)))

/-- field update performed by move_booking on success. -/
def apply_move (s : Store) (booking_id new_date new_time new_end_time : Nat) : Store :=
  { s with bookings := s.bookings.map fun b =>
      if b.id == booking_id then
        { b with booking_date := new_date, booking_time := new_time, end_time := new_end_time }
      else b }

/-- move_booking from src/app.py lines 1462-1525 (POST path): reject when
date or time is missing, when the booking-overlap query finds a conflict,
or when the new interval is blocked; otherwise update date, start and end.
The returned flag is true exactly when the move was committed. -/
def move_booking (s : Store) (booking_id : Nat) (new_date new_time : Option Nat)
    (duration : Nat) : Store × Bool :=
  match new_date, new_time with
  | some nd, some nt =>
    let new_end := nt + duration
    if move_conflict s booking_id nd nt new_end then (s, false)
    else if is_time_blocked s nd nt new_end then (s, false)
    else (apply_move s booking_id nd nt new_end, true)
  | _, _ => (s, false)

/-- booking-overlap query of extend_booking, src/app.py lines 1431-1437:
another booking on the same date with status confirmed or completed that
overlaps the grown trailing interval (start before the new end, end after
the old end). -/
def extend_conflict (s : Store) (booking_id booking_date old_end new_end : Nat) : Bool :=
  s.bookings.any fun b =>
    b.id != booking_id && b.booking_date == booking_date &&
    (b.status == Status.confirmed || b.status == Status.completed) &&
    decide (b.booking_time < new_end) && decide (b.end_time > old_end)

/-- field update performed by extend_booking on success. -/
def set_end_time (s : Store) (booking_id new_end : Nat) : Store :=
  { s with bookings := s.bookings.map fun b =>
      if b.id == booking_id then { b with end_time := new_end } else b }

/-- extend_booking from src/app.py lines 1395-1459: reject a zero delta,
reject a resulting duration below 15 or above 240 minutes; when extending
(positive delta) reject on a trailing-interval booking conflict or a
trailing-interval block; when shrinking (negative delta) perform no
conflict or block check; on success commit the new end time. The returned
flag is true exactly when the new end time was committed. -/
def extend_booking (s : Store) (booking_id : Nat) (extend_minutes : Int) : Store × Bool :=
  match s.bookings.find? (fun b => b.id == booking_id) with
  | none => (s, false)
  | some booking =>
    if extend_minutes = 0 then (s, false)
    else
      let current_duration : Int := (booking.end_time : Int) - (booking.booking_time : Int)
      let new_duration : Int := current_duration + extend_minutes
      if new_duration < 15 then (s, false)
      else if new_duration > 240 then (s, false)
      else
        let new_end_mins : Nat := ((booking.booking_time : Int) + new_duration).toNat
        if extend_minutes > 0 then
          if extend_conflict s booking_id booking.booking_date booking.end_time new_end_mins then
            (s, false)
          else if is_time_blocked s booking.booking_date booking.end_time new_end_mins then
            (s, false)
          else (set_end_time s booking_id new_end_mins, true)
        else (set_end_time s booking_id new_end_mins, true)

/-- customer_reschedule from src/app.py lines 3419-3477 (POST path): the
route verifies ownership and the more-than-24-hours gate (embedded as the
can_modify flag) and rejects missing inputs, then updates date, start and
end with no slot conflict or block check of any kind. -/
def customer_reschedule (s : Store) (booking_id : Nat) (can_modify : Bool)
    (new_date new_time : Option Nat) (duration : Nat) : Store × Bool :=
  if !can_modify then (s, false)
  else
    match new_date, new_time with
    | some nd, some nt => (apply_move s booking_id nd nt (nt + duration), true)
    | _, _ => (s, false)

/-- one pre-validated CSV row: the per-row format checks of
validate_csv_row (src/app.py lines 331-390) have passed and the named
service resolved to its duration. -/
structure CsvRow where
  booking_date : Nat
  booking_time : Nat
  duration : Nat
deriving DecidableEq

/-- import_confirm from src/app.py lines 1704-1761: each row is validated
by validate_csv_row, whose conflict step calls check_slot_available; a
passing row is added to the session (status confirmed), and because the
session autoflushes pending inserts before the query inside
check_slot_available runs, later rows are validated against the already
accepted rows as well as the pre-existing bookings. Returns the final
store, the imported count, and the error count. -/
def import_confirm (s : Store) (rows : List CsvRow) (next_id : Nat) : Store × Nat × Nat :=
  match rows with
  | [] => (s, 0, 0)
  | r :: rest =>
    let end_time := r.booking_time + r.duration
    if check_slot_available s r.booking_date r.booking_time end_time then
      let s2 : Store := { s with bookings := s.bookings ++
        [{ id := next_id, booking_date := r.booking_date, booking_time := r.booking_time,
           end_time := end_time, status := Status.confirmed }] }
      let rec_result := import_confirm s2 rest (next_id + 1)
      (rec_result.1, rec_result.2.1 + 1, rec_result.2.2)
    else
      let rec_result := import_confirm s rest next_id
      (rec_result.1, rec_result.2.1, rec_result.2.2 + 1)

/-- a booking prepended to the store, used to state which statuses affect
the conflict checks. -/
def insert_booking (b : Booking) (s : Store) : Store :=
  { s with bookings := b :: s.bookings }

/-- store with one confirmed booking at (10:00, 10:30) on day 0. -/
def demo_store : Store := ⟨[⟨1, 0, 600, 630, Status.confirmed⟩], [], []⟩

/-- store with two confirmed bookings on day 0: (10:00, 10:30) and
(11:40, 12:10). -/
def two_store : Store :=
  ⟨[⟨1, 0, 600, 630, Status.confirmed⟩, ⟨2, 0, 700, 730, Status.confirmed⟩], [], []⟩

/-- store with one completed booking at (10:00, 10:30) on day 0. -/
def completed_store : Store := ⟨[⟨1, 0, 600, 630, Status.completed⟩], [], []⟩

/-- store with one cancelled booking at (10:00, 10:30) on day 0. -/
def cancelled_store : Store := ⟨[⟨1, 0, 600, 630, Status.cancelled⟩], [], []⟩

/-- store with one no_show booking at (10:00, 10:30) on day 0. -/
def no_show_store : Store := ⟨[⟨1, 0, 600, 630, Status.no_show⟩], [], []⟩

/-- store with a single availability window 09:00 to 12:00 on weekday 0,
no bookings and no blocks. -/
def window_store : Store := ⟨[], [], [⟨0, 540, 720, true⟩]⟩

/-- store with one confirmed booking at (10:00, 11:00) on day 0, used to
exercise extend_booking. -/
def extend_store : Store := ⟨[⟨1, 0, 600, 660, Status.confirmed⟩], [], []⟩

lemma bool_eq_of_false_iff (x y : Bool) (h : (x = false) ↔ (y = false)) : x = y := by
  cases x <;> cases y <;> simp_all

lemma check_slot_available_eq_false_iff (s : Store) (d start e : Nat) :
    check_slot_available s d start e = false ↔
      is_time_blocked s d start e = true ∨
      ∃ b ∈ s.bookings, b.booking_date = d ∧ b.status = Status.confirmed ∧
        start < b.end_time ∧ b.booking_time < e := by
  cases hblk : is_time_blocked s d start e with
  | true => simp [check_slot_available, hblk]
  | false =>
    simp [check_slot_available, hblk, List.all_eq_false, List.mem_filter]

lemma move_conflict_eq_true_iff (s : Store) (bid nd nt ne : Nat) :
    move_conflict s bid nd nt ne = true ↔
      ∃ b ∈ s.bookings, b.id ≠ bid ∧ b.booking_date = nd ∧
        (b.status = Status.confirmed ∨ b.status = Status.completed) ∧
        ((b.booking_time ≤ nt ∧ b.end_time > nt) ∨
         (b.booking_time < ne ∧ b.end_time ≥ ne) ∨
         (b.booking_time ≥ nt ∧ b.end_time ≤ ne)) := by
  simp [move_conflict, List.any_eq_true, and_assoc, or_assoc]

lemma extend_conflict_eq_true_iff (s : Store) (bid d oe ne : Nat) :
    extend_conflict s bid d oe ne = true ↔
      ∃ b ∈ s.bookings, b.id ≠ bid ∧ b.booking_date = d ∧
        (b.status = Status.confirmed ∨ b.status = Status.completed) ∧
        b.booking_time < ne ∧ b.end_time > oe := by
  simp [extend_conflict, List.any_eq_true, and_assoc]

lemma is_time_blocked_insert (b : Booking) (s : Store) (d t e : Nat) :
    is_time_blocked (insert_booking b s) d t e = is_time_blocked s d t e := rfl

lemma check_slot_available_insert (s : Store) (b : Booking) (d start e : Nat)
    (h : b.status ≠ Status.confirmed ∨ b.booking_date ≠ d ∨
         ¬ start < b.end_time ∨ ¬ b.booking_time < e) :
    check_slot_available (insert_booking b s) d start e = check_slot_available s d start e := by
  apply bool_eq_of_false_iff
  rw [check_slot_available_eq_false_iff, check_slot_available_eq_false_iff,
    is_time_blocked_insert]
  constructor
  · rintro (hb | ⟨x, hx, hrest⟩)
    · exact Or.inl hb
    · rcases List.mem_cons.mp hx with hx | hx
      · subst hx
        rcases h with h | h | h | h <;> tauto
      · exact Or.inr ⟨x, hx, hrest⟩
  · rintro (hb | ⟨x, hx, hrest⟩)
    · exact Or.inl hb
    · exact Or.inr ⟨x, List.mem_cons_of_mem _ hx, hrest⟩

lemma move_conflict_insert (s : Store) (b : Booking) (bid nd nt ne : Nat)
    (h : b.status ≠ Status.confirmed ∧ b.status ≠ Status.completed) :
    move_conflict (insert_booking b s) bid nd nt ne = move_conflict s bid nd nt ne := by
  have hst : (b.status == Status.confirmed || b.status == Status.completed) = false := by
    cases hb : b.status <;> simp_all
  simp only [move_conflict, insert_booking, List.any_cons, hst, Bool.false_and,
    Bool.and_false, Bool.false_or]

lemma extend_conflict_insert (s : Store) (b : Booking) (bid d oe ne : Nat)
    (h : b.status ≠ Status.confirmed ∧ b.status ≠ Status.completed) :
    extend_conflict (insert_booking b s) bid d oe ne = extend_conflict s bid d oe ne := by
  have hst : (b.status == Status.confirmed || b.status == Status.completed) = false := by
    cases hb : b.status <;> simp_all
  simp only [extend_conflict, insert_booking, List.any_cons, hst, Bool.false_and,
    Bool.and_false, Bool.false_or]

/-- C1, counterexample: the claim says every booking mutation runs the
conflict check before writing and rejects a conflicting interval, naming
staff manual booking and customer reschedule. In the code add_booking
writes an overlapping confirmed booking even though check_slot_available
rejects the very same interval, and customer_reschedule commits a move of
booking 2 onto the interval of confirmed booking 1. -/
theorem c1_counterexample :
    check_slot_available demo_store 0 600 630 = false ∧
    add_booking demo_store 2 0 600 30 =
      ⟨[⟨1, 0, 600, 630, Status.confirmed⟩, ⟨2, 0, 600, 630, Status.confirmed⟩], [], []⟩ ∧
    customer_reschedule two_store 2 true (some 0) (some 600) 30 =
      (⟨[⟨1, 0, 600, 630, Status.confirmed⟩, ⟨2, 0, 600, 630, Status.confirmed⟩], [], []⟩,
        true) := by decide

/-- C1, amended: the conflict validation is run before state is written by
the public booking commit, admin move, and CSV import (and by extend, see
C8), and those paths leave the store unchanged on a conflict; but the
staff manual booking add_booking and the customer reschedule perform no
conflict check at all and write state unconditionally. -/
theorem c1_validator_gating (s : Store) (bid d t e nd nt dur : Nat) :
    (check_slot_available s d t e = false → intake_form s bid d t e = (s, false)) ∧
    (move_conflict s bid nd nt (nt + dur) = true →
      move_booking s bid (some nd) (some nt) dur = (s, false)) ∧
    (move_conflict s bid nd nt (nt + dur) = false →
      is_time_blocked s nd nt (nt + dur) = true →
      move_booking s bid (some nd) (some nt) dur = (s, false)) ∧
    (check_slot_available s d t (t + dur) = false →
      (import_confirm s [⟨d, t, dur⟩] bid).1 = s ∧
      (import_confirm s [⟨d, t, dur⟩] bid).2.2 = 1) ∧
    ((add_booking s bid d t dur).bookings = s.bookings ++
      [{ id := bid, booking_date := d, booking_time := t, end_time := t + dur,
         status := Status.confirmed }]) ∧
    (customer_reschedule s bid true (some nd) (some nt) dur =
      (apply_move s bid nd nt (nt + dur), true)) := by
  refine ⟨?_, ?_, ?_, ?_, rfl, rfl⟩
  · intro h
    unfold intake_form
    rw [h]
    rfl
  · intro h
    unfold move_booking
    dsimp only
    rw [h]
    rfl
  · intro h hb
    unfold move_booking
    dsimp only
    rw [h, hb]
    rfl
  · intro h
    unfold import_confirm
    dsimp only
    rw [h]
    simp [import_confirm]

/-- C1, witness: the public booking commit rejects the duplicate interval
of the confirmed booking in demo_store and leaves the store unchanged. -/
theorem c1_witness :
    intake_form demo_store 2 0 600 630 = (demo_store, false) :=
  (c1_validator_gating demo_store 2 0 600 630 0 600 30).1 (by decide)

/-- C2, counterexample: the claim says every conflict check rejects an
interval overlapping a completed booking; but check_slot_available, the
check used by the public commit, slot generation and CSV import, filters
bookings to status confirmed only, so a completed booking at
(10:00, 10:30) does not block a new booking at the same time and the
public commit accepts it. -/
theorem c2_counterexample :
    check_slot_available completed_store 0 600 630 = true ∧
    (intake_form completed_store 2 0 600 630).2 = true := by decide

/-- C2, amended: a confirmed booking occupies the calendar for every
conflict check — it blocks check_slot_available (public commit, slot
generation, CSV import) and, like a completed booking, triggers the move
and extend conflict queries; a cancelled booking never blocks any
conflict check; a completed booking does not block check_slot_available
but does block the move and extend conflict queries. -/
theorem c2_occupies_calendar (s : Store) (d t e bid nd nt dur : Nat) (b : Booking) :
    (b ∈ s.bookings → b.booking_date = d → b.status = Status.confirmed →
      t < b.end_time → b.booking_time < e → check_slot_available s d t e = false) ∧
    (b.status = Status.cancelled →
      check_slot_available (insert_booking b s) d t e = check_slot_available s d t e) ∧
    (b.status = Status.cancelled →
      move_conflict (insert_booking b s) bid nd nt (nt + dur) =
        move_conflict s bid nd nt (nt + dur)) ∧
    (b.status = Status.cancelled →
      extend_conflict (insert_booking b s) bid d t e = extend_conflict s bid d t e) ∧
    (b.status = Status.completed →
      check_slot_available (insert_booking b s) d t e = check_slot_available s d t e) ∧
    (b ∈ s.bookings → b.id ≠ bid → b.booking_date = nd →
      (b.status = Status.confirmed ∨ b.status = Status.completed) →
      b.booking_time ≤ nt → b.end_time > nt →
      move_booking s bid (some nd) (some nt) dur = (s, false)) ∧
    (b ∈ s.bookings → b.id ≠ bid → b.booking_date = d →
      (b.status = Status.confirmed ∨ b.status = Status.completed) →
      b.booking_time < e → b.end_time > t → extend_conflict s bid d t e = true) := by
  refine ⟨?_, ?_, ?_, ?_, ?_, ?_, ?_⟩
  · intro hb hd hs h1 h2
    rw [check_slot_available_eq_false_iff]
    exact Or.inr ⟨b, hb, hd, hs, h1, h2⟩
  · intro hs
    exact check_slot_available_insert s b d t e (Or.inl (by simp [hs]))
  · intro hs
    exact move_conflict_insert s b bid nd nt (nt + dur) (by simp [hs])
  · intro hs
    exact extend_conflict_insert s b bid d t e (by simp [hs])
  · intro hs
    exact check_slot_available_insert s b d t e (Or.inl (by simp [hs]))
  · intro hb hid hd hs h1 h2
    have hc : move_conflict s bid nd nt (nt + dur) = true := by
      rw [move_conflict_eq_true_iff]
      exact ⟨b, hb, hid, hd, hs, Or.inl ⟨h1, h2⟩⟩
    unfold move_booking
    dsimp only
    rw [hc]
    rfl
  · intro hb hid hd hs h1 h2
    rw [extend_conflict_eq_true_iff]
    exact ⟨b, hb, hid, hd, hs, h1, h2⟩

/-- C2, witness: the confirmed booking in demo_store blocks its own
interval and blocks an overlapping admin move; a cancelled overlapping
booking changes nothing; the completed booking in completed_store blocks
an overlapping admin move and triggers the extend conflict query. -/
theorem c2_witness :
    check_slot_available demo_store 0 600 630 = false ∧
    move_booking demo_store 2 (some 0) (some 600) 30 = (demo_store, false) ∧
    check_slot_available (insert_booking ⟨2, 0, 580, 640, Status.cancelled⟩ demo_store)
        0 540 560 =
      check_slot_available demo_store 0 540 560 ∧
    move_booking completed_store 2 (some 0) (some 600) 30 = (completed_store, false) ∧
    extend_conflict completed_store 2 0 590 620 = true :=
  ⟨(c2_occupies_calendar demo_store 0 600 630 2 0 600 30
      ⟨1, 0, 600, 630, Status.confirmed⟩).1 (by decide) rfl rfl (by norm_num) (by norm_num),
   (c2_occupies_calendar demo_store 0 600 630 2 0 600 30
      ⟨1, 0, 600, 630, Status.confirmed⟩).2.2.2.2.2.1
      (by decide) (by decide) rfl (Or.inl rfl) (by norm_num) (by norm_num),
   (c2_occupies_calendar demo_store 0 540 560 2 0 600 30
      ⟨2, 0, 580, 640, Status.cancelled⟩).2.1 rfl,
   (c2_occupies_calendar completed_store 0 600 630 2 0 600 30
      ⟨1, 0, 600, 630, Status.completed⟩).2.2.2.2.2.1
      (by decide) (by decide) rfl (Or.inr rfl) (by norm_num) (by norm_num),
   (c2_occupies_calendar completed_store 0 590 620 2 0 600 30
      ⟨1, 0, 600, 630, Status.completed⟩).2.2.2.2.2.2
      (by decide) (by decide) rfl (Or.inr rfl) (by norm_num) (by norm_num)⟩

/-- C3, counterexample: the claim says a no_show booking still occupies
its slot; but check_slot_available filters to status confirmed only, so a
no_show booking at (10:00, 10:30) does not block a new booking at the same
time and the public commit accepts it. -/
theorem c3_counterexample :
    check_slot_available no_show_store 0 600 630 = true ∧
    (intake_form no_show_store 2 0 600 630).2 = true := by decide

/-- C3, amended: a no_show booking does not occupy its slot: adding one to
the store changes the result of no conflict check (check_slot_available,
the move query, or the extend query). -/
theorem c3_no_show_does_not_block (s : Store) (b : Booking) (d t e bid nt dur : Nat)
    (hs : b.status = Status.no_show) :
    check_slot_available (insert_booking b s) d t e = check_slot_available s d t e ∧
    move_conflict (insert_booking b s) bid d nt (nt + dur) =
      move_conflict s bid d nt (nt + dur) ∧
    extend_conflict (insert_booking b s) bid d t e = extend_conflict s bid d t e :=
  ⟨check_slot_available_insert s b d t e (Or.inl (by simp [hs])),
   move_conflict_insert s b bid d nt (nt + dur) (by simp [hs]),
   extend_conflict_insert s b bid d t e (by simp [hs])⟩

/-- C3, witness: adding an exactly overlapping no_show booking to
demo_store leaves check_slot_available unchanged. -/
theorem c3_witness :
    check_slot_available (insert_booking ⟨3, 0, 600, 630, Status.no_show⟩ demo_store)
        0 600 630 =
      check_slot_available demo_store 0 600 630 :=
  (c3_no_show_does_not_block demo_store ⟨3, 0, 600, 630, Status.no_show⟩
    0 600 630 2 600 30 rfl).1

/-- C4, counterexample: for the single window 09:00 to 12:00, duration 45
and stride 30 with no bookings or blocks, the claim expects exactly 7
slots; the generator returns 5 (starts 540, 570, 600, 630, 660). -/
theorem c4_counterexample :
    (get_available_slots_for_date window_store 45 0).length ≠ 7 := by decide

/-- C4, amended: for window 09:00 to 12:00, duration 45, stride 30 and no
bookings or blocks, the generator returns exactly the 5 slots starting
09:00, 09:30, 10:00, 10:30, 11:00 in ascending order, each ending 45
minutes after its start (the last start with start + 45 at most 720 on the
30-minute stride is 660, that is 11:00). -/
theorem c4_slot_generation :
    get_available_slots_for_date window_store 45 0 =
      [(540, 585), (570, 615), (600, 645), (630, 675), (660, 705)] := by decide

/-- C5: one sweep call leaves a booking with status completed exactly when
it was already completed or was confirmed with a past date or with date
today and end time at or before the current time; a confirmed booking
meeting the condition has only its status changed; every other booking is
untouched; the sweep maps each booking independently; and the sweep is
idempotent. -/
theorem c5_auto_completion (s : Store) (today current_time : Nat) (b : Booking) :
    ((auto_complete_one today current_time b).status = Status.completed ↔
      b.status = Status.completed ∨
        (b.status = Status.confirmed ∧
          (b.booking_date < today ∨ (b.booking_date = today ∧ b.end_time ≤ current_time)))) ∧
    ((b.status = Status.confirmed ∧
        (b.booking_date < today ∨ (b.booking_date = today ∧ b.end_time ≤ current_time))) →
      auto_complete_one today current_time b = { b with status := Status.completed }) ∧
    (¬ (b.status = Status.confirmed ∧
        (b.booking_date < today ∨ (b.booking_date = today ∧ b.end_time ≤ current_time))) →
      auto_complete_one today current_time b = b) ∧
    ((auto_complete_past_appointments s today current_time).bookings =
      s.bookings.map (auto_complete_one today current_time)) ∧
    (auto_complete_past_appointments (auto_complete_past_appointments s today current_time)
        today current_time = auto_complete_past_appointments s today current_time) := by
  refine ⟨?_, ?_, ?_, rfl, ?_⟩
  · unfold auto_complete_one
    cases hs : b.status <;> split_ifs <;> simp_all
  · rintro ⟨hs, hc⟩
    unfold auto_complete_one
    split_ifs <;> simp_all
    omega
  · intro h
    unfold auto_complete_one
    split_ifs with h1 h2
    · simp only [Bool.and_eq_true, beq_iff_eq, decide_eq_true_eq] at h1
      exact absurd ⟨h1.1, Or.inl h1.2⟩ h
    · simp only [Bool.and_eq_true, beq_iff_eq, decide_eq_true_eq] at h2
      exact absurd ⟨h2.1.1, Or.inr ⟨h2.1.2, h2.2⟩⟩ h
    · rfl
  · unfold auto_complete_past_appointments
    simp only [List.map_map]
    congr 1
    apply List.map_congr_left
    intro b _
    show auto_complete_one today current_time (auto_complete_one today current_time b) = _
    unfold auto_complete_one
    split_ifs <;> simp_all

/-- C5, witness: a confirmed booking dated yesterday (day 9 with today day
10) becomes completed after one sweep step. -/
theorem c5_witness :
    auto_complete_one 10 720 ⟨1, 9, 600, 630, Status.confirmed⟩ =
      ⟨1, 9, 600, 630, Status.completed⟩ :=
  (c5_auto_completion ⟨[], [], []⟩ 10 720 ⟨1, 9, 600, 630, Status.confirmed⟩).2.1
    ⟨rfl, Or.inl (by norm_num)⟩

/-- C6, counterexample: the claim says cancelled and completed are
terminal; but undo_no_show sets status confirmed unconditionally, so a
completed booking becomes confirmed, and a cancelled booking reaches
confirmed via mark_no_show followed by undo_no_show. -/
theorem c6_counterexample :
    (undo_no_show completed_store 1).bookings = [⟨1, 0, 600, 630, Status.confirmed⟩] ∧
    (undo_no_show (mark_no_show cancelled_store 1) 1).bookings =
      [⟨1, 0, 600, 630, Status.confirmed⟩] := by decide

/-- C6, amended: the four manual status routes assign their target status
unconditionally whatever the current status (cancel to cancelled,
mark_no_show to no_show, undo_no_show to confirmed, mark_complete to
completed), so no status is terminal; only the automatic sweep is
restricted, changing nothing but confirmed bookings. -/
theorem c6_lifecycle (s : Store) (bid today current_time : Nat) (b : Booking)
    (hb : b ∈ s.bookings) (hid : b.id = bid) :
    ({ b with status := Status.cancelled } ∈ (cancel_booking s bid).bookings) ∧
    ({ b with status := Status.no_show } ∈ (mark_no_show s bid).bookings) ∧
    ({ b with status := Status.confirmed } ∈ (undo_no_show s bid).bookings) ∧
    ({ b with status := Status.completed } ∈ (mark_complete s bid).bookings) ∧
    (∀ c : Booking, c.status ≠ Status.confirmed →
      auto_complete_one today current_time c = c) := by
  have key : ∀ st : Status, { b with status := st } ∈ (set_status s bid st).bookings := by
    intro st
    unfold set_status
    have := List.mem_map_of_mem
      (fun c => if c.id == bid then { c with status := st } else c) hb
    simpa [hid] using this
  refine ⟨key _, key _, key _, key _, ?_⟩
  intro c hc
  unfold auto_complete_one
  split_ifs with h1 h2
  · simp only [Bool.and_eq_true, beq_iff_eq] at h1
    exact absurd h1.1 hc
  · simp only [Bool.and_eq_true, beq_iff_eq] at h2
    exact absurd h2.1.1 hc
  · rfl

/-- C6, witness: mark_no_show moves the cancelled booking of
cancelled_store to no_show. -/
theorem c6_witness :
    ({ id := 1, booking_date := 0, booking_time := 600, end_time := 630,
       status := Status.no_show } : Booking) ∈ (mark_no_show cancelled_store 1).bookings :=
  (c6_lifecycle cancelled_store 1 0 0 ⟨1, 0, 600, 630, Status.cancelled⟩
    (by decide) rfl).2.1

/-- C7: during a CSV import, a second row identical to an already
validated first row is rejected against it even when neither existed
before the import: importing two copies of a row that passes against the
store adds exactly one confirmed booking and reports one error. -/
theorem c7_import_accumulation (s : Store) (d t dur nid : Nat)
    (hdur : 0 < dur)
    (hok : check_slot_available s d t (t + dur) = true) :
    import_confirm s [⟨d, t, dur⟩, ⟨d, t, dur⟩] nid =
      ({ s with bookings := s.bookings ++
          [{ id := nid, booking_date := d, booking_time := t, end_time := t + dur,
             status := Status.confirmed }] }, 1, 1) := by
  have hfalse : check_slot_available
      ({ s with bookings := s.bookings ++
        [{ id := nid, booking_date := d, booking_time := t, end_time := t + dur,
           status := Status.confirmed }] } : Store) d t (t + dur) = false := by
    rw [check_slot_available_eq_false_iff]
    refine Or.inr ⟨⟨nid, d, t, t + dur, Status.confirmed⟩, ?_, rfl, rfl, ?_, ?_⟩
    · simp
    · show t < t + dur
      omega
    · show t < t + dur
      omega
  unfold import_confirm
  dsimp only
  rw [hok]
  simp only [if_true]
  unfold import_confirm
  dsimp only
  rw [hfalse]
  simp [import_confirm]

/-- C7, witness: importing two identical rows for day 0 at 10:00 into the
empty store keeps the first and rejects the second. -/
theorem c7_witness :
    import_confirm ⟨[], [], []⟩ [⟨0, 600, 30⟩, ⟨0, 600, 30⟩] 1 =
      (⟨[⟨1, 0, 600, 630, Status.confirmed⟩], [], []⟩, 1, 1) :=
  c7_import_accumulation ⟨[], [], []⟩ 0 600 30 1 (by norm_num) (by decide)

/-- C8: a duration change whose resulting total duration falls outside
[15, 240] is rejected with the store unchanged; a positive delta is
committed exactly when the grown trailing interval (old end to new end)
has no booking conflict and is not blocked; a negative delta within range
is committed with no conflict or block check of any kind. -/
theorem c8_extend_reduce (s : Store) (bid : Nat) (delta : Int) (bk : Booking)
    (hf : s.bookings.find? (fun b => b.id == bid) = some bk) :
    (((bk.end_time : Int) - bk.booking_time + delta < 15 ∨
      (bk.end_time : Int) - bk.booking_time + delta > 240) →
      extend_booking s bid delta = (s, false)) ∧
    (delta < 0 → 15 ≤ (bk.end_time : Int) - bk.booking_time + delta →
      (bk.end_time : Int) - bk.booking_time + delta ≤ 240 →
      extend_booking s bid delta =
        (set_end_time s bid
          ((bk.booking_time : Int) + ((bk.end_time : Int) - bk.booking_time + delta)).toNat,
         true)) ∧
    (delta > 0 → 15 ≤ (bk.end_time : Int) - bk.booking_time + delta →
      (bk.end_time : Int) - bk.booking_time + delta ≤ 240 →
      extend_booking s bid delta =
        (let new_end :=
          ((bk.booking_time : Int) + ((bk.end_time : Int) - bk.booking_time + delta)).toNat
         if extend_conflict s bid bk.booking_date bk.end_time new_end then (s, false)
         else if is_time_blocked s bk.booking_date bk.end_time new_end then (s, false)
         else (set_end_time s bid new_end, true))) := by
  refine ⟨?_, ?_, ?_⟩
  · intro h
    unfold extend_booking
    rw [hf]
    dsimp only
    split_ifs with h1 h2 h3 <;> first | rfl | omega
  · intro hneg h15 h240
    unfold extend_booking
    rw [hf]
    dsimp only
    split_ifs with h1 h2 h3 h4 <;> first | rfl | omega
  · intro hpos h15 h240
    unfold extend_booking
    rw [hf]
    dsimp only
    split_ifs with h1 h2 h3 h4 h5 h6 <;> first | rfl | omega

/-- C8, witness: extending the 60-minute booking of extend_store by 300
minutes exceeds 240 and is rejected unchanged; reducing it by 30 minutes
commits the new end 10:30 with no check. -/
theorem c8_witness :
    extend_booking extend_store 1 300 = (extend_store, false) ∧
    extend_booking extend_store 1 (-30) = (set_end_time extend_store 1 630, true) :=
  ⟨(c8_extend_reduce extend_store 1 300 ⟨1, 0, 600, 660, Status.confirmed⟩
      (by decide)).1 (by norm_num),
   (c8_extend_reduce extend_store 1 (-30) ⟨1, 0, 600, 660, Status.confirmed⟩
      (by decide)).2.1 (by norm_num) (by norm_num) (by norm_num)⟩

/-- C9: a new interval exactly equal to an existing confirmed booking on
the same date is reported unavailable, while an existing booking whose end
equals the new start never changes the outcome of the check (half-open
semantics: touching at an endpoint is not a conflict). -/
theorem c9_boundary_semantics (s : Store) (d start e : Nat) (b : Booking) :
    (b ∈ s.bookings → b.booking_date = d → b.status = Status.confirmed →
      b.booking_time < b.end_time →
      check_slot_available s d b.booking_time b.end_time = false) ∧
    (b.end_time = start →
      check_slot_available (insert_booking b s) d start e =
        check_slot_available s d start e) := by
  constructor
  · intro hb hd hs hlt
    rw [check_slot_available_eq_false_iff]
    exact Or.inr ⟨b, hb, hd, hs, hlt, hlt⟩
  · intro he
    exact check_slot_available_insert s b d start e
      (Or.inr (Or.inr (Or.inl (by omega))))

/-- C9, witness: the exact duplicate of the (10:00, 10:30) confirmed
booking is rejected, and a booking ending 10:30 does not affect the check
for (10:30, 11:00). -/
theorem c9_witness :
    check_slot_available demo_store 0 600 630 = false ∧
    check_slot_available (insert_booking ⟨2, 0, 600, 630, Status.confirmed⟩ ⟨[], [], []⟩)
        0 630 660 =
      check_slot_available (⟨[], [], []⟩ : Store) 0 630 660 :=
  ⟨(c9_boundary_semantics demo_store 0 600 660 ⟨1, 0, 600, 630, Status.confirmed⟩).1
      (by decide) rfl rfl (by norm_num),
   (c9_boundary_semantics ⟨[], [], []⟩ 0 630 660 ⟨2, 0, 600, 630, Status.confirmed⟩).2 rfl⟩

/-- C10: whenever move_booking or extend_booking rejects a request
(missing input, duration out of range, booking conflict or blocked time,
all reported as a false flag), the returned store is exactly the input
store, so the date, start time, end time and status of the target booking
are unchanged. -/
theorem c10_rejection_atomicity (s : Store) (bid : Nat) (nd nt : Option Nat)
    (dur : Nat) (delta : Int) :
    ((move_booking s bid nd nt dur).2 = false → (move_booking s bid nd nt dur).1 = s) ∧
    ((extend_booking s bid delta).2 = false → (extend_booking s bid delta).1 = s) := by
  constructor
  · intro h
    unfold move_booking at h ⊢
    rcases nd with _ | x
    · rfl
    rcases nt with _ | y
    · rfl
    dsimp only at h ⊢
    split_ifs at h ⊢ <;> simp_all
  · intro h
    unfold extend_booking at h ⊢
    rcases hf : s.bookings.find? (fun b => b.id == bid) with _ | bk <;> rw [hf] at h ⊢
    dsimp only at h ⊢
    split_ifs at h ⊢ <;> simp_all

/-- C10, witness: a move with missing inputs and a zero-delta extension
are both rejected and leave demo_store unchanged. -/
theorem c10_witness :
    (move_booking demo_store 1 none none 30).1 = demo_store ∧
    (extend_booking demo_store 1 0).1 = demo_store :=
  ⟨(c10_rejection_atomicity demo_store 1 none none 30 0).1 (by decide),
   (c10_rejection_atomicity demo_store 1 none none 30 0).2 (by decide)⟩

end BookingApp
